import Mathlib

/-!
# KubeAgent core simulation: a shallow embedding

A shallow embedding of the cluster-simulation core of the KubeAgent
repository, together with proofs of the behavioural properties stated in
its specification.

The embedded code:
* `src/services/kubernetesSimulator.ts` — seed-cluster generation
  (`generateMockEvents`, `generateMockPods`), the tick step and snapshot
  accessor (`getState`), and the command interpreter (`executeCommand`);
* `src/App.tsx` — the alert diff carried out by the monitoring `useEffect`
  (`computeAlerts` below) and the terminal entry point
  (`handleTerminalCommand`).

Modelling conventions:
* JavaScript numbers are modelled by `ℚ`; the float literals `0.01`, `0.05`
  and `0.5` become the exact rationals `mkRat 1 100`, `mkRat 1 20` and
  `mkRat 1 2`, and `Math.round x` becomes `⌊x + 1/2⌋`.
* Every call of `Math.random()`, of `Date`, and of the random-id helpers is
  replaced by a value read from an explicitly injected draw record
  (`InitDraws`, `TickDraws`, alert id generators), as the specification's
  testability section demands of a reimplementation.
* String scanning (`trim`, `includes`, `split`, the two regex matches,
  `padEnd`) is implemented on lists of characters so that every definition
  evaluates by kernel reduction.
* `getState` in the source mutates `this.state.pods` and then returns
  `this.state` itself.  It is embedded as a function returning a pair: the
  first component is the new internal store, the second the value handed to
  the caller (in the source these are one and the same object).
-/

namespace KubeAgent

/-! ## Entity model (src/unnamed/part_003, the types module) -/

/-- `ResourceStatus` enum: `Running | Pending | Error | Terminating`. -/
inductive ResourceStatus where
  | running
  | pending
  | error
  | terminating
  deriving DecidableEq, BEq

/-- The string value carried by each `ResourceStatus` enum member. -/
def ResourceStatus.str : ResourceStatus → String
  | .running => "Running"
  | .pending => "Pending"
  | .error => "Error"
  | .terminating => "Terminating"

/-- `PodUsage`: cpu and memory, percentages. -/
structure PodUsage where
  cpu : ℚ
  memory : ℚ
  deriving DecidableEq

/-- `K8sEvent.type`: `'Normal' | 'Warning'`. -/
inductive K8sEventType where
  | normal
  | warning
  deriving DecidableEq, BEq

/-- `K8sEvent`: an immutable audit record appended to a pod's event log. -/
structure K8sEvent where
  id : String
  type : K8sEventType
  reason : String
  message : String
  timestamp : String
  deriving DecidableEq

inductive ConstraintType where
  | nodeAffinity
  | podAffinity
  | podAntiAffinity
  deriving DecidableEq, BEq

inductive ConstraintRule where
  | required
  | preferred
  deriving DecidableEq, BEq

/-- `SchedulingConstraint`: descriptive scheduling metadata. -/
structure SchedulingConstraint where
  type : ConstraintType
  rule : ConstraintRule
  labelSelector : String
  deriving DecidableEq

/-- `Pod`.  The TypeScript field `namespace` is spelled `namespace'` (the
word is a Lean keyword); `schedulingConstraints?` is optional in the source
and hence an `Option` here, while `connections?` is populated for every
generated pod and is a plain list. -/
structure Pod where
  id : String
  name : String
  namespace' : String
  status : ResourceStatus
  ip : String
  node : String
  labels : List (String × String)
  creationTimestamp : String
  usage : PodUsage
  events : List K8sEvent
  connections : List String
  schedulingConstraints : Option (List SchedulingConstraint)
  deriving DecidableEq

/-- `ClusterState`: the snapshot type exchanged across the core's boundary. -/
structure ClusterState where
  pods : List Pod
  namespaces : List String
  deriving DecidableEq

/-- `Alert.type`: `'Status' | 'Utilization'`. -/
inductive AlertType where
  | status
  | utilization
  deriving DecidableEq, BEq

/-- `Alert.severity`: `'Warning' | 'Critical'`. -/
inductive Severity where
  | warning
  | critical
  deriving DecidableEq, BEq

/-- `Alert`, as produced by the monitoring loop in `App.tsx`. -/
structure Alert where
  id : String
  podId : String
  podName : String
  type : AlertType
  severity : Severity
  message : String
  timestamp : String
  deriving DecidableEq

/-! ## Character-list string utilities

Kernel-computable counterparts of the JavaScript string operations the
source uses (`includes`, `trim`, `padEnd`, `split`, and the two regular
expressions). -/

/-- Does `pat` occur at the head of `cs`? (prefix test on characters). -/
def charsStartWith : List Char → List Char → Bool
  | _, [] => true
  | [], _ :: _ => false
  | c :: cs, d :: ds => c = d && charsStartWith cs ds

/-- Does `pat` occur anywhere in `cs`? -/
def charsContain : List Char → List Char → Bool
  | [], pat => charsStartWith [] pat
  | c :: cs, pat => charsStartWith (c :: cs) pat || charsContain cs pat

/-- JavaScript `haystack.includes(needle)`. -/
def strIncludes (s pat : String) : Bool :=
  charsContain s.data pat.data

/-- JavaScript `String.prototype.trim` (whitespace at both ends removed). -/
def jsTrim (s : String) : String :=
  String.mk (((s.data.dropWhile Char.isWhitespace).reverse.dropWhile
    Char.isWhitespace).reverse)

/-- JavaScript `s.padEnd(n)`: pad with spaces on the right up to length `n`. -/
def padEnd (s : String) (n : ℕ) : String :=
  s ++ String.mk (List.replicate (n - s.length) ' ')

/-- JavaScript `\s` (whitespace class), for the command regexes. -/
def jsIsSpace (c : Char) : Bool :=
  c.isWhitespace

/-- Split worker: the fuel strictly bounds the characters still to be
consumed, making the recursion structural (each step eats at least one
character, so `fuel = length` at the top level never runs out). -/
def splitOnCore (sep : List Char) : ℕ → List Char → List (List Char)
  | _, [] => [[]]
  | 0, cs => [cs]
  | fuel + 1, c :: cs =>
    if sep ≠ [] ∧ charsStartWith (c :: cs) sep then
      [] :: splitOnCore sep fuel ((c :: cs).drop sep.length)
    else
      match splitOnCore sep fuel cs with
      | [] => [[c]]
      | piece :: rest => (c :: piece) :: rest

/-- JavaScript `s.split(sep)` on character lists, for a non-empty `sep`. -/
def splitOnChars (sep cs : List Char) : List (List Char) :=
  splitOnCore sep cs.length cs

/-- `Math.round x` for a JavaScript number: `⌊x + 0.5⌋`. -/
def jsRound (q : ℚ) : ℤ :=
  ⌊q + mkRat 1 2⌋

/-! ## Seed cluster (src/services/kubernetesSimulator.ts, lines 4–125)

All `Math.random()` results and `Date` readings are injected through
`InitDraws`: string-valued draws (`Math.random().toString(36).substr(…)`)
become injected string suppliers, numeric draws become injected rationals
(in `[0,1)` for a faithful source), and `new Date()` becomes an injected
epoch-millisecond count plus an injected ISO renderer. -/

/-- The random draws consumed while wiring one pod's outbound connections. -/
structure ConnDraws where
  gate : ℚ
  count : ℚ
  target : ℕ → ℚ

/-- Every external input of `generateMockPods` / `generateMockEvents`. -/
structure InitDraws where
  nameSuffix : ℕ → String
  podId : ℕ → String
  eventId : ℕ → ℕ → String
  nowMs : ℤ
  iso : ℤ → String
  cpuR : ℕ → ℚ
  memR : ℕ → ℚ
  conn : ℕ → ConnDraws

/-- `INITIAL_NAMESPACES` (line 4). -/
def INITIAL_NAMESPACES : List String :=
  ["default", "kube-system", "production", "monitoring"]

/-- The node roster (line 49). -/
def nodes : List String :=
  ["node-1", "node-2", "node-3"]

/-- `generateMockEvents` (lines 6–45): the five canonical lifecycle events,
with decreasing historical timestamps.  `podIdx` selects this pod's slice of
the injected event-id draws. -/
def generateMockEvents (d : InitDraws) (podIdx : ℕ) (podName nodeName : String) :
    List K8sEvent :=
  [ { id := d.eventId podIdx 0, type := .normal, reason := "Scheduled",
      message := "Successfully assigned " ++ podName ++ " to " ++ nodeName,
      timestamp := d.iso (d.nowMs - 1000 * 60 * 60) },
    { id := d.eventId podIdx 1, type := .normal, reason := "Pulling",
      message := "Pulling image \"nginx:latest\"",
      timestamp := d.iso (d.nowMs - 1000 * 60 * 59) },
    { id := d.eventId podIdx 2, type := .normal, reason := "Pulled",
      message := "Successfully pulled image \"nginx:latest\" in 2.1s",
      timestamp := d.iso (d.nowMs - 1000 * 60 * 58) },
    { id := d.eventId podIdx 3, type := .normal, reason := "Created",
      message := "Created container main",
      timestamp := d.iso (d.nowMs - 1000 * 60 * 57) },
    { id := d.eventId podIdx 4, type := .normal, reason := "Started",
      message := "Started container main",
      timestamp := d.iso (d.nowMs - 1000 * 60 * 56) } ]

/-- The application pod roster (line 52). -/
def defaultNames : List String :=
  ["api-gateway", "auth-service", "user-db", "redis-cache", "worker-node-a"]

/-- The system pod roster (line 89). -/
def systemNames : List String :=
  ["coredns", "kube-proxy", "calico-node", "metrics-server"]

/-- The scheduling constraints attached per application-pod name
(lines 58–67). -/
def constraintsFor (name : String) : List SchedulingConstraint :=
  (if name = "api-gateway" then
    [{ type := .nodeAffinity, rule := .required, labelSelector := "disk=ssd" }]
  else []) ++
  (if name = "user-db" then
    [{ type := .podAntiAffinity, rule := .required, labelSelector := "app=user-db" }]
  else []) ++
  (if name = "redis-cache" then
    [{ type := .podAffinity, rule := .preferred, labelSelector := "app=user-db" }]
  else [])

/-- `List.map` with the element's position, from a start index: the shape of
the `forEach((x, i) => …)` loops of the source. -/
def mapIdxFrom (f : ℕ → α → β) : ℕ → List α → List β
  | _, [] => []
  | k, a :: as => f k a :: mapIdxFrom f (k + 1) as

/-- One application pod (lines 53–86).  `i` is the roster position. -/
def mkDefaultPod (d : InitDraws) (i : ℕ) (name : String) : Pod :=
  let nodeName := (nodes.getD (i % nodes.length) "")
  let fullPodName := name ++ "-" ++ d.nameSuffix i
  { id := "pod-" ++ d.podId i,
    name := fullPodName,
    namespace' := "default",
    status := .running,
    ip := "10.244.0." ++ toString (i + 10),
    node := nodeName,
    labels := [("app", name), ("tier", if i < 2 then "frontend" else "backend")],
    creationTimestamp := d.iso d.nowMs,
    usage := { cpu := ((⌊d.cpuR i * 60⌋ + 5 : ℤ) : ℚ),
               memory := ((⌊d.memR i * 70⌋ + 10 : ℤ) : ℚ) },
    events := generateMockEvents d i fullPodName nodeName,
    connections := [],
    schedulingConstraints := some (constraintsFor name) }

/-- One system pod (lines 90–108); draw indices continue after the five
application pods.  The source never sets `schedulingConstraints` here. -/
def mkSystemPod (d : InitDraws) (i : ℕ) (name : String) : Pod :=
  let nodeName := nodes.getD 0 ""
  let fullPodName := name ++ "-" ++ d.nameSuffix (5 + i)
  { id := "sys-" ++ toString i,
    name := fullPodName,
    namespace' := "kube-system",
    status := .running,
    ip := "10.96.0." ++ toString (i + 1),
    node := nodeName,
    labels := [("k8s-app", name)],
    creationTimestamp := d.iso d.nowMs,
    usage := { cpu := ((⌊d.cpuR (5 + i) * 15⌋ + 2 : ℤ) : ℚ),
               memory := ((⌊d.memR (5 + i) * 20⌋ + 5 : ℤ) : ℚ) },
    events := generateMockEvents d (5 + i) fullPodName nodeName,
    connections := [],
    schedulingConstraints := none }

/-- One iteration of the inner `for` loop of the connection pass
(lines 115–120): pick `pods[Math.floor(r * pods.length)]`; push its id
unless it is the pod itself or already connected. -/
def tryAddTarget (allPods : List Pod) (selfId : String) (r : ℚ)
    (conns : List String) : List String :=
  match allPods.get? (⌊r * (allPods.length : ℚ)⌋.toNat) with
  | none => conns
  | some target =>
    if target.id != selfId && !(conns.contains target.id) then
      conns ++ [target.id]
    else conns

/-- The connection pass for one pod (lines 112–122): with probability
one half wire 1–2 outbound links. -/
def updatePodConns (c : ConnDraws) (allPods : List Pod) (pod : Pod) : Pod :=
  if c.gate > mkRat 1 2 then
    let targetCount := (⌊c.count * 2⌋).toNat + 1
    let conns := (List.range targetCount).foldl
      (fun cs j => tryAddTarget allPods pod.id (c.target j) cs) pod.connections
    { pod with connections := conns }
  else pod

/-- `generateMockPods` (lines 47–125): five application pods, four system
pods, then the random connection pass over the whole roster. -/
def generateMockPods (d : InitDraws) : List Pod :=
  let pods := mapIdxFrom (mkDefaultPod d) 0 defaultNames ++
    mapIdxFrom (mkSystemPod d) 0 systemNames
  mapIdxFrom (fun i pod => updatePodConns (d.conn i) pods pod) 0 pods

/-- The constructor's store (lines 130–135). -/
def initState (d : InitDraws) : ClusterState :=
  { pods := generateMockPods d, namespaces := INITIAL_NAMESPACES }

/-! ## Tick step and snapshot (`getState`, lines 137–156) -/

/-- The random draws one pod consumes during one tick. -/
structure TickDraws where
  flip : ℚ
  cpuRand : ℚ
  spike : ℚ
  memRand : ℚ

/-- The per-pod tick body (lines 138–153): a 1% status flip, a CPU delta of
`r*10 - 5` overridden by a +50 spike with probability 5%, a memory delta of
`r*4 - 2`, both usage values re-clamped into `[0,100]`. -/
def tickPod (t : TickDraws) (pod : Pod) : Pod :=
  let status :=
    if t.flip < mkRat 1 100 then
      (if pod.status = .running then ResourceStatus.error else .running)
    else pod.status
  let cpuDelta := if t.spike < mkRat 1 20 then (50 : ℚ) else t.cpuRand * 10 - 5
  { pod with
    status := status,
    usage := { cpu := max 0 (min 100 (pod.usage.cpu + cpuDelta)),
               memory := max 0 (min 100 (pod.usage.memory + (t.memRand * 4 - 2))) } }

/-- The store after the tick body of `getState` ran: `this.state.pods`
reassigned to the mapped array, `namespaces` untouched. -/
def tickState (ds : ℕ → TickDraws) (s : ClusterState) : ClusterState :=
  { s with pods := mapIdxFrom (fun i pod => tickPod (ds i) pod) 0 s.pods }

/-- `getState` (lines 137–156): advance `this.state` by one tick and return
`this.state` itself.  First component: the internal store afterwards; second
component: the value returned to the caller.  In the source both are the
same object — no copy of any kind is taken. -/
def getState (ds : ℕ → TickDraws) (s : ClusterState) : ClusterState × ClusterState :=
  let s2 := tickState ds s
  (s2, s2)

/-! ## Command interpreter (`executeCommand`, lines 158–212)

Dispatch is by substring match on the trimmed command, in the source's
order: interactive shell, `get pods`, `describe pod`, `logs`, `tcpdump`,
generic fallback.  The `logs` branch reads `new Date()`; that reading is
injected as `nowIso`.  Each branch is paired with the (unchanged) store so
that the store's evolution across a command is explicit. -/

/-- The regex `/exec -it\s+([^\s]+)/` applied at one position: the literal
`exec -it`, one-or-more whitespace, then the captured non-space token. -/
def matchExecName : List Char → Option String
  | cs =>
    if charsStartWith cs "exec -it".data then
      let rest := cs.drop 8
      let ws := rest.takeWhile jsIsSpace
      let tok := (rest.dropWhile jsIsSpace).takeWhile (fun ch => !jsIsSpace ch)
      if ws ≠ [] ∧ tok ≠ [] then some (String.mk tok) else none
    else none

/-- Leftmost match of `/exec -it\s+([^\s]+)/` over the whole string. -/
def findExecName : List Char → Option String
  | [] => none
  | c :: cs =>
    match matchExecName (c :: cs) with
    | some t => some t
    | none => findExecName cs

/-- The alternative `-n\s+(\S+)` of the namespace regex, at one position. -/
def matchDashN : List Char → Option String
  | '-' :: 'n' :: rest =>
    let ws := rest.takeWhile jsIsSpace
    let tok := (rest.dropWhile jsIsSpace).takeWhile (fun ch => !jsIsSpace ch)
    if ws ≠ [] ∧ tok ≠ [] then some (String.mk tok) else none
  | _ => none

/-- The alternative `--namespace=(\S+)` of the namespace regex, at one
position. -/
def matchNamespaceEq (cs : List Char) : Option String :=
  if charsStartWith cs "--namespace=".data then
    let tok := (cs.drop 12).takeWhile (fun ch => !jsIsSpace ch)
    if tok ≠ [] then some (String.mk tok) else none
  else none

/-- Leftmost match of the namespace regex (`-n\s+(\S+)` or
`--namespace=(\S+)`): at each position the first alternative is tried
before the second, as a JavaScript regex does. -/
def findNsMatch : List Char → Option String
  | [] => none
  | c :: cs =>
    match matchDashN (c :: cs) with
    | some t => some t
    | none =>
      match matchNamespaceEq (c :: cs) with
      | some t => some t
      | none => findNsMatch cs

/-- `const ns = nsMatch ? (nsMatch[1] || nsMatch[2]) : 'default'`
(line 185). -/
def nsOf (cmd : String) : String :=
  (findNsMatch cmd.data).getD "default"

/-- `cmd.includes('-A') || cmd.includes('--all-namespaces')` (line 186). -/
def allFlag (cmd : String) : Bool :=
  strIncludes cmd "-A" || strIncludes cmd "--all-namespaces"

/-- The pod set listed by `get pods` (line 187). -/
def filteredPods (s : ClusterState) (cmd : String) : List Pod :=
  if allFlag cmd then s.pods
  else s.pods.filter (fun p => p.namespace' == nsOf cmd)

/-- The `get pods` table header (line 189). -/
def getPodsHeader : String :=
  padEnd "NAME" 30 ++ padEnd "READY" 10 ++ padEnd "STATUS" 15 ++
    padEnd "RESTARTS" 10 ++ "AGE"

/-- One `get pods` table row (line 190), exactly as the source builds it:
`` `${p.name.padEnd(30)}1/1`.padEnd(10) + `${p.status.padEnd(15)}0`.padEnd(10) + `2d` ``. -/
def podRow (p : Pod) : String :=
  padEnd (padEnd p.name 30 ++ "1/1") 10 ++
    padEnd (padEnd p.status.str 15 ++ "0") 10 ++ "2d"

/-- The `get pods` branch (lines 183–192). -/
def getPodsOutput (s : ClusterState) (cmd : String) : String :=
  let ns := nsOf cmd
  let filtered := filteredPods s cmd
  if filtered.length = 0 then
    "No resources found in " ++ ns ++ " namespace."
  else
    String.intercalate "\n" (getPodsHeader :: filtered.map podRow)

/-- The canned shell transcript of the `exec -it` branch (lines 162–181),
templated with the extracted pod name (`'pod'` when the capture fails). -/
def execShellOutput (cmd : String) : String :=
  let podName := (findExecName cmd.data).getD "pod"
  "Defaulting container name to main.\n" ++
  "Successfully connected to pod/" ++ podName ++ "\n" ++
  "/ # whoami\n" ++
  "root\n" ++
  "/ # ls -F /app\n" ++
  "bin/  config.json  main.js  node_modules/  package.json  public/\n" ++
  "/ # netstat -tuln\n" ++
  "Active Internet connections (only servers)\n" ++
  "Proto Recv-Q Send-Q Local Address           Foreign Address         State       \n" ++
  "tcp        0      0 0.0.0.0:8080            0.0.0.0:*               LISTEN      \n" ++
  "/ # ps aux\n" ++
  "PID   USER     TIME  COMMAND\n" ++
  "    1 root      0:05 node main.js\n" ++
  "   42 root      0:00 /bin/sh\n" ++
  "   43 root      0:00 ps aux\n" ++
  "/ # exit\n" ++
  "command terminated with exit code 0"

/-- `cmd.split('describe pod ')[1]?.split(' ')[0]` (line 195): the token
after the first `describe pod ` occurrence; `none` when nothing follows
(JavaScript's `undefined`). -/
def describeTarget (cmd : String) : Option String :=
  match (splitOnChars "describe pod ".data cmd.data).get? 1 with
  | none => none
  | some seg =>
    match (splitOnChars [' '] seg).get? 0 with
    | none => none
    | some tok => some (String.mk tok)

/-- The `describe pod` branch (lines 194–199); an undefined pod name prints
as `undefined` inside the template literal. -/
def describeOutput (s : ClusterState) (cmd : String) : String :=
  let podName := describeTarget cmd
  let shown := podName.getD "undefined"
  match s.pods.find? (fun p => p.name == shown && podName.isSome) with
  | none => "Error: pod \"" ++ shown ++ "\" not found"
  | some pod =>
    "Name: " ++ pod.name ++ "\nNamespace: " ++ pod.namespace' ++
      "\nStatus: " ++ pod.status.str ++ "\nIP: " ++ pod.ip

/-- The canned `logs` transcript (line 202), templated with the current
time. -/
def logsOutput (nowIso : String) : String :=
  "[" ++ nowIso ++ "] INFO: Starting service...\n[" ++ nowIso ++
    "] INFO: Listening on port 8080\n[" ++ nowIso ++ "] INFO: Health check passed"

/-- The canned `tcpdump` transcript (lines 205–209). -/
def tcpdumpOutput : String :=
  "tcpdump: listening on eth0, link-type EN10MB (Ethernet)\n" ++
  "10:00:01.123 IP 10.244.0.10.45678 > 10.244.0.15.80: Flags [S]\n" ++
  "10:00:01.124 IP 10.244.0.15.80 > 10.244.0.10.45678: Flags [S.]"

/-- `executeCommand` (lines 158–212).  The pair is (store afterwards,
returned text); every dispatch branch of the source only reads the store. -/
def executeCommand (nowIso : String) (s : ClusterState) (command : String) :
    ClusterState × String :=
  let cmd := jsTrim command
  if strIncludes cmd "exec -it" then (s, execShellOutput cmd)
  else if strIncludes cmd "get pods" then (s, getPodsOutput s cmd)
  else if strIncludes cmd "describe pod" then (s, describeOutput s cmd)
  else if strIncludes cmd "logs" then (s, logsOutput nowIso)
  else if strIncludes cmd "tcpdump" then (s, tcpdumpOutput)
  else (s, "Command executed: " ++ command ++ "\nOutput: Success (Simulated)")

/-- `handleTerminalCommand` (src/App.tsx, lines 113–124): a blank command
returns before anything happens (no output line, no state change);
otherwise the command runs, a `$ cmd\noutput` message is produced, and
`setClusterState({ ...simulator.getState() })` ticks the store once. -/
def handleTerminalCommand (ds : ℕ → TickDraws) (nowIso : String)
    (s : ClusterState) (command : String) : ClusterState × Option String :=
  if jsTrim command = "" then (s, none)
  else
    let r := executeCommand nowIso s command
    ((tickState ds r.1), some ("$ " ++ command ++ "\n" ++ r.2))

/-! ## Alert engine (src/App.tsx, lines 34–76)

The monitoring effect diffs the previous snapshot against the new one, pod
by pod.  Alert ids come from `Math.random`; they are injected here as
`gen`, applied in emission order, and `new Date()` as `now`. -/

/-- `const THRESHOLD = 90` (line 52). -/
def THRESHOLD : ℚ := 90

/-- The utilization edge condition (lines 53–54). -/
def utilEdge (lastPod pod : Pod) : Prop :=
  (pod.usage.cpu > THRESHOLD ∧ lastPod.usage.cpu ≤ THRESHOLD) ∨
    (pod.usage.memory > THRESHOLD ∧ lastPod.usage.memory ≤ THRESHOLD)

instance (lastPod pod : Pod) : Decidable (utilEdge lastPod pod) := by
  unfold utilEdge; infer_instance

/-- The Status alert pushed on an `Error` edge (lines 42–50); the id is
filled in afterwards from the injected id source. -/
def mkStatusAlert (now : String) (pod : Pod) : Alert :=
  { id := "", podId := pod.id, podName := pod.name, type := .status,
    severity := .critical,
    message := "Pod " ++ pod.name ++ " has entered Error state!",
    timestamp := now }

/-- The Utilization alert pushed on a threshold edge (lines 55–64). -/
def mkUtilAlert (now : String) (pod : Pod) : Alert :=
  let metric := if pod.usage.cpu > THRESHOLD then "CPU" else "Memory"
  { id := "", podId := pod.id, podName := pod.name, type := .utilization,
    severity := if pod.usage.cpu > 95 then .critical else .warning,
    message := "High " ++ metric ++ " usage on " ++ pod.name ++ " (" ++
      toString (jsRound (max pod.usage.cpu pod.usage.memory)) ++ "%)",
    timestamp := now }

/-- The loop body for one pod of the new snapshot (lines 38–66): look the
pod up by id in the previous snapshot, skip it when absent, otherwise push
a Status alert on an Error edge and a Utilization alert on a threshold
edge — the two rules fire independently. -/
def alertsForPod (now : String) (prev : ClusterState) (pod : Pod) : List Alert :=
  match prev.pods.find? (fun p => p.id == pod.id) with
  | none => []
  | some lastPod =>
    (if pod.status = .error ∧ lastPod.status ≠ .error then
      [mkStatusAlert now pod]
    else []) ++
    (if utilEdge lastPod pod then [mkUtilAlert now pod] else [])

/-- All alerts of one diff, in emission order, before ids are assigned. -/
def rawAlerts (now : String) (prev next : ClusterState) : List Alert :=
  next.pods.flatMap (alertsForPod now prev)

/-- Fill in the ids from the injected random-id source, in emission order
(the source draws `Math.random().toString(36).substr(2, 9)` per push). -/
def assignIds (gen : ℕ → String) : ℕ → List Alert → List Alert
  | _, [] => []
  | k, a :: rest => { a with id := gen k } :: assignIds gen (k + 1) rest

/-- The new alerts one monitoring tick emits for the transition
`prev → next` (lines 37–66). -/
def computeAlerts (gen : ℕ → String) (now : String) (prev next : ClusterState) :
    List Alert :=
  assignIds gen 0 (rawAlerts now prev next)

/-- Is `a` a Utilization alert? -/
def isUtilAlert (a : Alert) : Bool :=
  a.type == AlertType.utilization

/-- Is `a` a Status alert? -/
def isStatusAlert (a : Alert) : Bool :=
  a.type == AlertType.status

/-- Is `a` a Utilization alert for the pod with id `pid`? -/
def isUtilAlertFor (pid : String) (a : Alert) : Bool :=
  a.podId == pid && a.type == AlertType.utilization

/-! ## Reachable states

Everything the core can do to the store: the constructor, ticks
(`getState`), and command executions. -/

/-- The numeric usage draws of a faithful random source lie in `[0,1)`,
as `Math.random()` guarantees. -/
def ValidInitDraws (d : InitDraws) : Prop :=
  ∀ i, 0 ≤ d.cpuR i ∧ d.cpuR i < 1 ∧ 0 ≤ d.memR i ∧ d.memR i < 1

/-- The store states reachable from initialization by any interleaving of
ticks and command executions. -/
inductive Reachable (d : InitDraws) : ClusterState → Prop where
  | init : Reachable d (initState d)
  | tick (ds : ℕ → TickDraws) {s : ClusterState} :
      Reachable d s → Reachable d (tickState ds s)
  | cmd (nowIso command : String) {s : ClusterState} :
      Reachable d s → Reachable d (executeCommand nowIso s command).1

/-! ## Concrete fixtures

A concrete injected random source and concrete states, used by the witness
and counterexample theorems below. -/

/-- A concrete, fully deterministic random source for initialization. -/
def exampleDraws : InitDraws :=
  { nameSuffix := fun i => toString i,
    podId := fun i => toString i,
    eventId := fun i k => toString i ++ "-" ++ toString k,
    nowMs := 0,
    iso := fun t => toString t,
    cpuR := fun _ => 0,
    memR := fun _ => 0,
    conn := fun _ => { gate := 0, count := 0, target := fun _ => 0 } }

/-- Concrete tick draws: no status flip (`flip = 1`), no spike
(`spike = 1`), CPU delta `1*10 - 5 = +5`, memory delta `(1/2)*4 - 2 = 0`. -/
def exampleTick : ℕ → TickDraws :=
  fun _ => { flip := 1, cpuRand := 1, spike := 1, memRand := mkRat 1 2 }

/-- A concrete pod sitting at 50% CPU and memory. -/
def examplePod : Pod :=
  { id := "pod-1", name := "api-gateway-x", namespace' := "default",
    status := .running, ip := "10.244.0.10", node := "node-1",
    labels := [("app", "api-gateway")], creationTimestamp := "t0",
    usage := { cpu := 50, memory := 50 }, events := [], connections := [],
    schedulingConstraints := some [] }

/-- A concrete one-pod store. -/
def exampleStore : ClusterState :=
  { pods := [examplePod], namespaces := INITIAL_NAMESPACES }

/-- A concrete injected alert-id source. -/
def exampleGen : ℕ → String := fun i => "alert-" ++ toString i

/-- The example pod in `Error` state. -/
def examplePodError : Pod := { examplePod with status := .error }

/-- A one-pod store whose pod is in `Error` state. -/
def exampleStoreError : ClusterState :=
  { pods := [examplePodError], namespaces := INITIAL_NAMESPACES }

/-- The example pod at 85% CPU / 50% memory. -/
def examplePod85 : Pod :=
  { examplePod with usage := { cpu := 85, memory := 50 } }

/-- The example pod at 96% CPU / 50% memory. -/
def examplePod96 : Pod :=
  { examplePod with usage := { cpu := 96, memory := 50 } }

def exampleStore85 : ClusterState :=
  { pods := [examplePod85], namespaces := INITIAL_NAMESPACES }

def exampleStore96 : ClusterState :=
  { pods := [examplePod96], namespaces := INITIAL_NAMESPACES }

/-- The CPU trajectory of the spec's edge-triggering test: 80, then five
snapshots at 95. -/
def examplePodAt (k : ℕ) : Pod :=
  { examplePod with usage := { cpu := if k = 0 then 80 else 95, memory := 50 } }

/-- The snapshot sequence of the spec's edge-triggering test. -/
def exampleSeq (k : ℕ) : ClusterState :=
  { pods := [examplePodAt k], namespaces := INITIAL_NAMESPACES }

/-- Tick draws whose flip draw fires (`0 < 0.01`). -/
def exampleFlipDraws : TickDraws :=
  { flip := 0, cpuRand := 1, spike := 1, memRand := mkRat 1 2 }

/-- The example pod in `Pending` state. -/
def examplePodPending : Pod := { examplePod with status := .pending }

/-- The spec's command example. -/
def exampleCommand : String := "kubectl get pods -n kube-system"

/-! ## Helper lemmas -/

theorem mapIdxFrom_length (f : ℕ → α → β) (k : ℕ) (l : List α) :
    (mapIdxFrom f k l).length = l.length := by
  induction l generalizing k with
  | nil => rfl
  | cons a as ih => simp [mapIdxFrom, ih]

theorem mapIdxFrom_getElem? (f : ℕ → α → β) (k i : ℕ) (l : List α) :
    (mapIdxFrom f k l)[i]? = (l[i]?).map (f (k + i)) := by
  induction l generalizing k i with
  | nil => simp [mapIdxFrom]
  | cons a as ih =>
    cases i with
    | zero => simp [mapIdxFrom]
    | succ i =>
      have hk : k + 1 + i = k + (i + 1) := by omega
      simp only [mapIdxFrom, List.getElem?_cons_succ, ih, hk]

theorem mem_mapIdxFrom {f : ℕ → α → β} {k : ℕ} {l : List α} {b : β}
    (hb : b ∈ mapIdxFrom f k l) : ∃ i a, a ∈ l ∧ b = f i a := by
  induction l generalizing k with
  | nil => simp [mapIdxFrom] at hb
  | cons a as ih =>
    simp only [mapIdxFrom, List.mem_cons] at hb
    rcases hb with h | h
    · exact ⟨k, a, List.mem_cons_self a as, h⟩
    · obtain ⟨i, a', ha', rfl⟩ := ih h
      exact ⟨i, a', List.mem_cons_of_mem a ha', rfl⟩

/-- Every dispatch branch of `executeCommand` returns the store unchanged. -/
theorem executeCommand_fst (nowIso : String) (s : ClusterState) (command : String) :
    (executeCommand nowIso s command).1 = s := by
  simp only [executeCommand]
  split_ifs <;> rfl

/-- `tickPod` rewrites only `status` and `usage`. -/
theorem tickPod_frame (t : TickDraws) (p : Pod) :
    (tickPod t p).id = p.id ∧ (tickPod t p).name = p.name ∧
    (tickPod t p).namespace' = p.namespace' ∧ (tickPod t p).ip = p.ip ∧
    (tickPod t p).node = p.node ∧ (tickPod t p).labels = p.labels ∧
    (tickPod t p).creationTimestamp = p.creationTimestamp ∧
    (tickPod t p).events = p.events ∧
    (tickPod t p).connections = p.connections ∧
    (tickPod t p).schedulingConstraints = p.schedulingConstraints := by
  refine ⟨rfl, rfl, rfl, rfl, rfl, rfl, rfl, rfl, rfl, rfl⟩

/-! ## C9 — command execution never mutates the cluster state -/

/-- C9.  For every command string and every cluster state, `executeCommand`
leaves the `ClusterState` unchanged: no dispatch path (shell, `get pods`,
`describe pod`, `logs`, `tcpdump`, fallback) mutates any pod field or the
namespaces list. -/
theorem execute_command_is_read_only :
    ∀ (nowIso : String) (s : ClusterState) (command : String),
      (executeCommand nowIso s command).1 = s :=
  fun nowIso s command => executeCommand_fst nowIso s command

/-! ## C10 — a tick modifies at most `status` and `usage` -/

/-- C10.  Each tick changes at most the `status` and `usage` fields of each
pod: the number and order of pods, every other pod field, and the cluster's
namespaces list are preserved unchanged. -/
theorem tick_modifies_only_status_and_usage :
    ∀ (ds : ℕ → TickDraws) (s : ClusterState),
      (tickState ds s).namespaces = s.namespaces ∧
      (tickState ds s).pods.length = s.pods.length ∧
      ∀ (i : ℕ) (p : Pod), s.pods[i]? = some p →
        ∃ q : Pod, (tickState ds s).pods[i]? = some q ∧
          q.id = p.id ∧ q.name = p.name ∧ q.namespace' = p.namespace' ∧
          q.ip = p.ip ∧ q.node = p.node ∧ q.labels = p.labels ∧
          q.creationTimestamp = p.creationTimestamp ∧ q.events = p.events ∧
          q.connections = p.connections ∧
          q.schedulingConstraints = p.schedulingConstraints := by
  intro ds s
  refine ⟨rfl, mapIdxFrom_length _ _ _, ?_⟩
  intro i p hp
  refine ⟨tickPod (ds i) p, ?_, tickPod_frame (ds i) p⟩
  show (mapIdxFrom (fun i pod => tickPod (ds i) pod) 0 s.pods)[i]? = _
  rw [mapIdxFrom_getElem?, hp]
  simp

/-! ## C8 — a blank command is a no-op -/

/-- C8.  Executing an empty or all-whitespace command string through the
terminal entry point is a no-op: it produces no output and causes no change
to the cluster state (`handleTerminalCommand` returns before reaching the
simulator). -/
theorem blank_command_is_noop :
    ∀ (ds : ℕ → TickDraws) (nowIso : String) (s : ClusterState)
      (command : String), jsTrim command = "" →
      handleTerminalCommand ds nowIso s command = (s, none) := by
  intro ds nowIso s command h
  unfold handleTerminalCommand
  simp [h]

/-- Witness for C8 at the all-whitespace command `"   "`. -/
theorem blank_command_is_noop_witness :
    jsTrim "   " = "" ∧
      handleTerminalCommand exampleTick "2024-01-01T00:00:00.000Z" exampleStore
        "   " = (exampleStore, none) :=
  ⟨rfl, blank_command_is_noop exampleTick "2024-01-01T00:00:00.000Z" exampleStore
    "   " rfl⟩

/-! ## C1 — usage stays within `[0,100]` in every reachable snapshot -/

/-- A seed usage value `Math.floor(r * m) + b` lies in `[0,100]` whenever
`r ∈ [0,1)` and `m + b ≤ 101`. -/
theorem seed_value_bounds (r : ℚ) (m b : ℕ) (h0 : 0 ≤ r) (h1 : r < 1)
    (hm : 0 < m) (hmb : m + b ≤ 101) :
    0 ≤ ((⌊r * m⌋ + b : ℤ) : ℚ) ∧ ((⌊r * m⌋ + b : ℤ) : ℚ) ≤ 100 := by
  have hge : (0 : ℤ) ≤ ⌊r * (m : ℚ)⌋ :=
    Int.floor_nonneg.mpr (mul_nonneg h0 (by positivity))
  have hlt : ⌊r * (m : ℚ)⌋ < (m : ℤ) := by
    rw [Int.floor_lt]
    push_cast
    exact mul_lt_of_lt_one_left (by exact_mod_cast hm) h1
  constructor
  · exact_mod_cast by omega
  · exact_mod_cast show (⌊r * (m : ℚ)⌋ + b : ℤ) ≤ 100 by omega

/-- The connection pass never touches a pod's usage. -/
theorem updatePodConns_usage (c : ConnDraws) (allPods : List Pod) (p : Pod) :
    (updatePodConns c allPods p).usage = p.usage := by
  unfold updatePodConns
  split <;> rfl

/-- Every freshly generated pod's usage lies in `[0,100]` (in fact in the
narrower designated seed ranges). -/
theorem generateMockPods_usage_bounds (d : InitDraws) (hd : ValidInitDraws d) :
    ∀ pod ∈ generateMockPods d,
      0 ≤ pod.usage.cpu ∧ pod.usage.cpu ≤ 100 ∧
        0 ≤ pod.usage.memory ∧ pod.usage.memory ≤ 100 := by
  intro pod hpod
  unfold generateMockPods at hpod
  obtain ⟨i, q, hq, rfl⟩ := mem_mapIdxFrom hpod
  rw [show (updatePodConns (d.conn i) _ q).usage = q.usage from
    updatePodConns_usage _ _ _]
  rcases List.mem_append.mp hq with h | h
  · obtain ⟨j, name, _, rfl⟩ := mem_mapIdxFrom h
    obtain ⟨hc0, hc1, hm0, hm1⟩ := hd j
    have hcpu := seed_value_bounds (d.cpuR j) 60 5 hc0 hc1 (by norm_num) (by norm_num)
    have hmem := seed_value_bounds (d.memR j) 70 10 hm0 hm1 (by norm_num) (by norm_num)
    exact ⟨hcpu.1, hcpu.2, hmem.1, hmem.2⟩
  · obtain ⟨j, name, _, rfl⟩ := mem_mapIdxFrom h
    obtain ⟨hc0, hc1, hm0, hm1⟩ := hd (5 + j)
    have hcpu := seed_value_bounds (d.cpuR (5 + j)) 15 2 hc0 hc1 (by norm_num) (by norm_num)
    have hmem := seed_value_bounds (d.memR (5 + j)) 20 5 hm0 hm1 (by norm_num) (by norm_num)
    exact ⟨hcpu.1, hcpu.2, hmem.1, hmem.2⟩

/-- The tick's clamp `Math.max(0, Math.min(100, x))` always lands in
`[0,100]`, whatever the delta was. -/
theorem clamp_bounds (x : ℚ) :
    0 ≤ max 0 (min 100 x) ∧ max 0 (min 100 x) ≤ 100 :=
  ⟨le_max_left 0 _, max_le (by norm_num) (min_le_left _ _)⟩

/-- C1.  For every pod in every snapshot reachable from initialization by
any sequence of ticks and command executions, `0 ≤ usage.cpu ≤ 100` and
`0 ≤ usage.memory ≤ 100` (given a faithful random source, whose draws lie
in `[0,1)`). -/
theorem usage_always_within_bounds :
    ∀ (d : InitDraws), ValidInitDraws d →
      ∀ (s : ClusterState), Reachable d s →
        ∀ pod ∈ s.pods,
          0 ≤ pod.usage.cpu ∧ pod.usage.cpu ≤ 100 ∧
            0 ≤ pod.usage.memory ∧ pod.usage.memory ≤ 100 := by
  intro d hd s hs
  induction hs with
  | init => exact generateMockPods_usage_bounds d hd
  | tick ds _ _ =>
    intro pod hpod
    obtain ⟨i, q, _, rfl⟩ := mem_mapIdxFrom hpod
    exact ⟨(clamp_bounds _).1, (clamp_bounds _).2,
      (clamp_bounds _).1, (clamp_bounds _).2⟩
  | cmd nowIso command _ ih =>
    rw [executeCommand_fst]
    exact ih

/-- Witness for C1: the concrete random source is valid, and the invariant
holds of the snapshot it initializes. -/
theorem usage_always_within_bounds_witness :
    ValidInitDraws exampleDraws ∧
      ∀ pod ∈ (initState exampleDraws).pods,
        0 ≤ pod.usage.cpu ∧ pod.usage.cpu ≤ 100 ∧
          0 ≤ pod.usage.memory ∧ pod.usage.memory ≤ 100 := by
  have hd : ValidInitDraws exampleDraws := by
    intro i
    refine ⟨le_refl 0, by norm_num [exampleDraws], le_refl 0,
      by norm_num [exampleDraws]⟩
  exact ⟨hd, usage_always_within_bounds exampleDraws hd _ Reachable.init⟩

/-! ## C2 — snapshotting is neither idempotent nor an independent copy

`getState` is the only snapshot operation the simulator exposes, and it
(1) returns the internal store itself rather than a copy — the pair's two
components below are one and the same value, as they are one and the same
object in the source — and (2) advances the state on every call, so two
consecutive calls cannot return structurally equal snapshots once any pod's
CPU delta is non-zero. -/

/-- The snapshot `getState` returns is the internal store itself, and a
second call (with the same per-pod draws: CPU delta `+5`) returns a
structurally different state: the example pod's CPU moves `50 → 55 → 60`. -/
theorem getState_not_an_independent_snapshot :
    (getState exampleTick exampleStore).2 = (getState exampleTick exampleStore).1 ∧
      (getState exampleTick ((getState exampleTick exampleStore).1)).2 ≠
        (getState exampleTick exampleStore).2 := by
  refine ⟨rfl, ?_⟩
  intro h
  have hcpu := congrArg
    (fun st : ClusterState => st.pods.map (fun p => p.usage.cpu)) h
  simp only [getState, tickState, exampleStore, exampleTick, examplePod,
    mapIdxFrom, tickPod, List.map_cons, List.map_nil, List.cons.injEq,
    and_true] at hcpu
  norm_num [Rat.mkRat_eq_div, max_def, min_def] at hcpu

/-! ## Alert-engine lemmas -/

/-- Assigning ids changes no count over a predicate that ignores ids. -/
theorem assignIds_countP (gen : ℕ → String) (pr : Alert → Bool)
    (hpr : ∀ (a : Alert) (sId : String), pr { a with id := sId } = pr a) :
    ∀ (n : ℕ) (l : List Alert), (assignIds gen n l).countP pr = l.countP pr := by
  intro n l
  induction l generalizing n with
  | nil => rfl
  | cons a rest ih => simp [assignIds, List.countP_cons, hpr, ih]

/-- Every alert the loop body emits while processing `pod` carries that
pod's id. -/
theorem alertsForPod_podId {now : String} {prev : ClusterState} {pod : Pod}
    {a : Alert} (ha : a ∈ alertsForPod now prev pod) : a.podId = pod.id := by
  unfold alertsForPod at ha
  cases hfind : prev.pods.find? (fun p => p.id == pod.id) with
  | none => rw [hfind] at ha; simp at ha
  | some lastPod =>
    rw [hfind] at ha
    rcases List.mem_append.mp ha with h | h
    · split at h
      · simp only [List.mem_singleton] at h
        subst h; rfl
      · simp at h
    · split at h
      · simp only [List.mem_singleton] at h
        subst h; rfl
      · simp at h

/-- A pod absent from the previous snapshot is skipped entirely. -/
theorem alertsForPod_skip {now : String} {prev : ClusterState} {pod : Pod}
    (h : prev.pods.find? (fun p => p.id == pod.id) = none) :
    alertsForPod now prev pod = [] := by
  unfold alertsForPod
  rw [h]

/-- The Utilization alerts of one loop-body run: exactly one when the edge
condition holds, none otherwise. -/
theorem alertsForPod_util_filter {now : String} {prev : ClusterState}
    {pod lastPod : Pod}
    (hfind : prev.pods.find? (fun p => p.id == pod.id) = some lastPod) :
    (alertsForPod now prev pod).filter isUtilAlert =
      (if utilEdge lastPod pod then [mkUtilAlert now pod] else []) := by
  unfold alertsForPod
  rw [hfind, List.filter_append]
  have h1 : (if pod.status = .error ∧ lastPod.status ≠ .error then
      [mkStatusAlert now pod] else []).filter isUtilAlert = [] := by
    split <;> simp [mkStatusAlert, isUtilAlert] <;> rfl
  have h2 : (if utilEdge lastPod pod then [mkUtilAlert now pod] else
      []).filter isUtilAlert =
      (if utilEdge lastPod pod then [mkUtilAlert now pod] else []) := by
    split <;> simp [mkUtilAlert, isUtilAlert] <;> rfl
  rw [h1, h2, List.nil_append]

/-- The Status alerts of one loop-body run: exactly one on an Error edge,
none otherwise. -/
theorem alertsForPod_status_filter {now : String} {prev : ClusterState}
    {pod lastPod : Pod}
    (hfind : prev.pods.find? (fun p => p.id == pod.id) = some lastPod) :
    (alertsForPod now prev pod).filter isStatusAlert =
      (if pod.status = .error ∧ lastPod.status ≠ .error then
        [mkStatusAlert now pod] else []) := by
  unfold alertsForPod
  rw [hfind, List.filter_append]
  have h1 : (if pod.status = .error ∧ lastPod.status ≠ .error then
      [mkStatusAlert now pod] else []).filter isStatusAlert =
      (if pod.status = .error ∧ lastPod.status ≠ .error then
        [mkStatusAlert now pod] else []) := by
    split <;> simp [mkStatusAlert, isStatusAlert] <;> rfl
  have h2 : (if utilEdge lastPod pod then [mkUtilAlert now pod] else
      []).filter isStatusAlert = [] := by
    split <;> simp [mkUtilAlert, isStatusAlert] <;> rfl
  rw [h1, h2, List.append_nil]

/-- Utilization-alert count of one loop-body run. -/
theorem alertsForPod_util_count {now : String} {prev : ClusterState}
    {pod lastPod : Pod}
    (hfind : prev.pods.find? (fun p => p.id == pod.id) = some lastPod) :
    (alertsForPod now prev pod).countP isUtilAlert =
      (if utilEdge lastPod pod then 1 else 0) := by
  rw [List.countP_eq_length_filter, alertsForPod_util_filter hfind]
  split <;> rfl

/-- Counting Utilization alerts for `pid` over a diff only sees the pods
whose id is `pid`. -/
theorem countP_flatMap_by_id (now : String) (prev : ClusterState)
    (pid : String) :
    ∀ pods : List Pod,
      (pods.flatMap (alertsForPod now prev)).countP (isUtilAlertFor pid) =
        ((pods.filter (fun q => q.id == pid)).flatMap
          (alertsForPod now prev)).countP (isUtilAlertFor pid) := by
  intro pods
  induction pods with
  | nil => rfl
  | cons q rest ih =>
    rw [List.flatMap_cons, List.countP_append, List.filter_cons]
    cases hq : q.id == pid with
    | true =>
      simp only [hq, if_true]
      rw [List.flatMap_cons, List.countP_append, ih]
    | false =>
      have hz : (alertsForPod now prev q).countP (isUtilAlertFor pid) = 0 := by
        rw [List.countP_eq_zero]
        intro a ha
        have hpa := alertsForPod_podId ha
        simp only [isUtilAlertFor, hpa, hq, Bool.false_and]
        exact Bool.false_ne_true
      simp only [hq, Bool.false_eq_true, if_false]
      rw [hz, ih, Nat.zero_add]

/-- A filter returning a singleton pins down `find?`. -/
theorem find?_of_filter_singleton {α : Type _} {pr : α → Bool} {x : α} :
    ∀ {l : List α}, l.filter pr = [x] → l.find? pr = some x := by
  intro l
  induction l with
  | nil => intro h; cases h
  | cons a as ih =>
    intro h
    cases ha : pr a with
    | true =>
      simp only [List.filter_cons, ha, if_true] at h
      obtain ⟨rfl, -⟩ : a = x ∧ as.filter pr = [] := by simpa using h
      exact List.find?_cons_of_pos _ ha
    | false =>
      simp only [List.filter_cons, ha, Bool.false_eq_true, if_false] at h
      rw [List.find?_cons_of_neg _ (by simp [ha])]
      exact ih h

/-- The element of a singleton filter satisfies the predicate. -/
theorem pr_of_filter_singleton {α : Type _} {pr : α → Bool} {x : α}
    {l : List α} (h : l.filter pr = [x]) : pr x = true :=
  (List.mem_filter.mp (h ▸ List.mem_cons_self x [])).2

/-! ## C5 — Status alerts are edge-triggered and first appearances are
skipped -/

/-- C5.  For every pod present in both snapshots, exactly one Critical
`Status` alert with message `"Pod {name} has entered Error state!"` is
emitted iff `next.status = Error` and `prev.status ≠ Error` (an
Error-to-Error transition emits none); a pod missing from the previous
snapshot is skipped entirely.  The last two conjuncts run the spec's two
examples: Running→Error yields exactly that one alert, Error→Error yields
none. -/
theorem status_alert_edge_triggered :
    (∀ (now : String) (prev : ClusterState) (pod : Pod),
        prev.pods.find? (fun p => p.id == pod.id) = none →
          alertsForPod now prev pod = []) ∧
    (∀ (now : String) (prev : ClusterState) (pod lastPod : Pod),
        prev.pods.find? (fun p => p.id == pod.id) = some lastPod →
          (alertsForPod now prev pod).filter isStatusAlert =
            (if pod.status = .error ∧ lastPod.status ≠ .error then
              [{ id := "", podId := pod.id, podName := pod.name,
                 type := .status, severity := .critical,
                 message := "Pod " ++ pod.name ++ " has entered Error state!",
                 timestamp := now }]
            else [])) ∧
    computeAlerts exampleGen "T" exampleStore exampleStoreError =
      [{ id := "alert-0", podId := "pod-1", podName := "api-gateway-x",
         type := .status, severity := .critical,
         message := "Pod api-gateway-x has entered Error state!",
         timestamp := "T" }] ∧
    computeAlerts exampleGen "T" exampleStoreError exampleStoreError = [] := by
  refine ⟨?_, ?_, by decide, by decide⟩
  · intro now prev pod h
    exact alertsForPod_skip h
  · intro now prev pod lastPod hfind
    exact alertsForPod_status_filter hfind

/-! ## C3 — Utilization alerts are edge-triggered -/

/-- C3.  Utilization alerting is edge-triggered: for every pair of
snapshots and every pod present in both, exactly one Utilization alert is
emitted iff `(next.cpu > 90 ∧ prev.cpu ≤ 90) ∨ (next.mem > 90 ∧
prev.mem ≤ 90)`; consequently, over any snapshot sequence in which the
pod's CPU crosses from ≤ 90 to > 90 and stays above while its memory stays
at or below the threshold, exactly one Utilization alert is emitted for
that pod, at the crossing tick only.  The last conjunct runs the spec's
five-tick example (CPU 80 → 95, 95, 95, 95, 95): the per-tick alert counts
are 1, 0, 0, 0, 0. -/
theorem utilization_alert_edge_triggered :
    (∀ (now : String) (prev : ClusterState) (pod lastPod : Pod),
        prev.pods.find? (fun p => p.id == pod.id) = some lastPod →
          (alertsForPod now prev pod).countP isUtilAlert =
            (if utilEdge lastPod pod then 1 else 0)) ∧
    (∀ (S : ℕ → ClusterState) (N : ℕ) (pid : String) (p : ℕ → Pod)
        (gen : ℕ → String) (now : String),
        (∀ k, k ≤ N → (S k).pods.filter (fun q => q.id == pid) = [p k]) →
        (p 0).usage.cpu ≤ THRESHOLD →
        (∀ k, 1 ≤ k → k ≤ N → (p k).usage.cpu > THRESHOLD) →
        (∀ k, k ≤ N → (p k).usage.memory ≤ THRESHOLD) →
        ∀ k, 1 ≤ k → k ≤ N →
          (computeAlerts gen now (S (k - 1)) (S k)).countP
              (isUtilAlertFor pid) =
            (if k = 1 then 1 else 0)) ∧
    (List.range 5).map (fun j =>
        (computeAlerts exampleGen "T" (exampleSeq j) (exampleSeq (j + 1))).countP
          isUtilAlert) = [1, 0, 0, 0, 0] := by
  refine ⟨?_, ?_, by decide⟩
  · intro now prev pod lastPod hfind
    exact alertsForPod_util_count hfind
  · intro S N pid p gen now hfilter h0 hcpu hmem k hk1 hkN
    have hkm : k - 1 ≤ N := Nat.le_trans (Nat.sub_le k 1) hkN
    have hfk := hfilter k hkN
    have hfkm := hfilter (k - 1) hkm
    have hpk : (p k).id = pid := by
      simpa [beq_iff_eq] using pr_of_filter_singleton hfk
    rw [computeAlerts, assignIds_countP gen (isUtilAlertFor pid)
      (fun a sId => rfl), rawAlerts,
      countP_flatMap_by_id, hfk, List.flatMap_cons, List.flatMap_nil,
      List.append_nil]
    have hfind : (S (k - 1)).pods.find? (fun q => q.id == (p k).id) =
        some (p (k - 1)) := by
      rw [hpk]
      exact find?_of_filter_singleton hfkm
    have hcongr : (alertsForPod now (S (k - 1)) (p k)).countP
        (isUtilAlertFor pid) =
        (alertsForPod now (S (k - 1)) (p k)).countP isUtilAlert := by
      apply List.countP_congr
      intro a ha
      have hpa := alertsForPod_podId ha
      simp [isUtilAlertFor, isUtilAlert, hpa, hpk]
    rw [hcongr, alertsForPod_util_count hfind]
    rcases Nat.lt_or_ge k 2 with hk2 | hk2
    · have hk : k = 1 := by omega
      subst hk
      have hedge : utilEdge (p (1 - 1)) (p 1) := by
        have h00 : (1 : ℕ) - 1 = 0 := rfl
        rw [h00]
        exact Or.inl ⟨hcpu 1 (le_refl 1) hkN, h0⟩
      rw [if_pos hedge, if_pos rfl]
    · have hne : ¬ (k = 1) := by omega
      have hnedge : ¬ utilEdge (p (k - 1)) (p k) := by
        intro hedge
        rcases hedge with ⟨_, h2⟩ | ⟨h1, _⟩
        · exact absurd h2 (not_le.mpr (hcpu (k - 1) (by omega) hkm))
        · exact absurd h1 (not_lt.mpr (hmem k hkN))
      rw [if_neg hnedge, if_neg hne]

/-! ## C4 — the shape of a Utilization alert -/

/-- C4.  Whenever a Utilization alert is emitted for a pod, its reported
metric is `"CPU"` if `next.cpu > 90` and `"Memory"` otherwise, its severity
is Critical iff `next.cpu > 95`, and its message is
`"High {Metric} usage on {name} ({round(max(next.cpu, next.mem))}%)"`. -/
theorem utilization_alert_shape :
    ∀ (now : String) (prev : ClusterState) (pod lastPod : Pod),
      prev.pods.find? (fun p => p.id == pod.id) = some lastPod →
      utilEdge lastPod pod →
      (alertsForPod now prev pod).filter isUtilAlert =
        [{ id := "", podId := pod.id, podName := pod.name,
           type := .utilization,
           severity := if pod.usage.cpu > 95 then .critical else .warning,
           message := "High " ++
             (if pod.usage.cpu > THRESHOLD then "CPU" else "Memory") ++
             " usage on " ++ pod.name ++ " (" ++
             toString (jsRound (max pod.usage.cpu pod.usage.memory)) ++ "%)",
           timestamp := now }] := by
  intro now prev pod lastPod hfind hedge
  rw [alertsForPod_util_filter hfind, if_pos hedge]
  rfl

/-- Witness for C4: the spec's example, prev `{cpu 85, mem 50}` to next
`{cpu 96, mem 50}`, produces exactly one alert, metric CPU, severity
Critical, message `"High CPU usage on api-gateway-x (96%)"`, which contains
`96%`. -/
theorem utilization_alert_shape_witness :
    exampleStore85.pods.find? (fun p => p.id == examplePod96.id) =
      some examplePod85 ∧
    utilEdge examplePod85 examplePod96 ∧
    (alertsForPod "T" exampleStore85 examplePod96).filter isUtilAlert =
      [{ id := "", podId := examplePod96.id, podName := examplePod96.name,
         type := .utilization,
         severity := if examplePod96.usage.cpu > 95 then .critical else .warning,
         message := "High " ++
           (if examplePod96.usage.cpu > THRESHOLD then "CPU" else "Memory") ++
           " usage on " ++ examplePod96.name ++ " (" ++
           toString (jsRound (max examplePod96.usage.cpu
             examplePod96.usage.memory)) ++ "%)",
         timestamp := "T" }] ∧
    (computeAlerts exampleGen "T" exampleStore85 exampleStore96).map
        (fun a => (a.type, a.severity, a.message)) =
      [(AlertType.utilization, Severity.critical,
        "High CPU usage on api-gateway-x (96%)")] ∧
    strIncludes "High CPU usage on api-gateway-x (96%)" "96%" = true := by
  have hfind : exampleStore85.pods.find? (fun p => p.id == examplePod96.id) =
      some examplePod85 := by decide
  have hedge : utilEdge examplePod85 examplePod96 := by
    exact Or.inl ⟨by norm_num [examplePod96, examplePod, THRESHOLD],
      by norm_num [examplePod85, examplePod, THRESHOLD]⟩
  refine ⟨hfind, hedge,
    utilization_alert_shape "T" exampleStore85 examplePod96 examplePod85
      hfind hedge, ?_, by decide⟩
  have hstat : ¬ (examplePod96.status = .error ∧
      examplePod85.status ≠ .error) := by decide
  have hraw : rawAlerts "T" exampleStore85 exampleStore96 =
      [mkUtilAlert "T" examplePod96] := by
    show [examplePod96].flatMap (alertsForPod "T" exampleStore85) =
      [mkUtilAlert "T" examplePod96]
    rw [List.flatMap_cons, List.flatMap_nil, List.append_nil]
    unfold alertsForPod
    simp only [hfind]
    rw [if_neg hstat, if_pos hedge, List.nil_append]
  have hround : jsRound (max examplePod96.usage.cpu
      examplePod96.usage.memory) = 96 := by
    norm_num [examplePod96, examplePod, jsRound, Rat.mkRat_eq_div, max_def]
  rw [computeAlerts, hraw]
  show [{ mkUtilAlert "T" examplePod96 with id := exampleGen 0 }].map _ = _
  simp only [List.map_cons, List.map_nil, mkUtilAlert, hround]
  norm_num [examplePod96, examplePod, THRESHOLD, exampleGen]
  rfl

/-! ## C6 — the random status flip

The source computes `status === RUNNING ? ERROR : RUNNING`, so when the 1%
draw fires a `Pending` or `Terminating` pod does not keep its status: it is
sent to `Running`.  The claim as stated is therefore false; the
counterexample below exhibits it, and the amended theorem states what the
flip rule actually does, together with the reachability fact (every pod of
every reachable snapshot is `Running` or `Error`) under which the rule does
reduce to the Running↔Error toggle of the spec. -/

/-- Counterexample to C6 as stated: when the flip draw fires, a `Pending`
pod's status is changed (to `Running`), not left alone. -/
theorem status_flip_changes_pending_pod :
    examplePodPending.status = ResourceStatus.pending ∧
      (tickPod exampleFlipDraws examplePodPending).status =
        ResourceStatus.running := by
  exact ⟨rfl, by decide⟩

/-- The connection pass never touches a pod's status. -/
theorem updatePodConns_status (c : ConnDraws) (allPods : List Pod) (p : Pod) :
    (updatePodConns c allPods p).status = p.status := by
  unfold updatePodConns
  split <;> rfl

/-- Every freshly generated pod is `Running`. -/
theorem generateMockPods_status (d : InitDraws) :
    ∀ pod ∈ generateMockPods d, pod.status = .running := by
  intro pod hpod
  unfold generateMockPods at hpod
  obtain ⟨i, q, hq, rfl⟩ := mem_mapIdxFrom hpod
  rw [updatePodConns_status]
  rcases List.mem_append.mp hq with h | h <;>
    · obtain ⟨j, name, _, rfl⟩ := mem_mapIdxFrom h
      rfl

/-- C6, amended.  When the 1% draw fires, the flip rule maps `Running` to
`Error` and every other status — `Error`, but also `Pending` and
`Terminating` — to `Running`; when it does not fire, the status is
unchanged.  In every reachable snapshot each pod's status is `Running` or
`Error`, so on the states the simulator actually produces the rule only
ever toggles Running↔Error. -/
theorem status_flip_toggles_running_error :
    (∀ (t : TickDraws) (p : Pod), t.flip < mkRat 1 100 →
        (tickPod t p).status =
          (if p.status = .running then ResourceStatus.error else .running)) ∧
    (∀ (t : TickDraws) (p : Pod), ¬ t.flip < mkRat 1 100 →
        (tickPod t p).status = p.status) ∧
    (∀ (d : InitDraws) (s : ClusterState), Reachable d s →
        ∀ p ∈ s.pods, p.status = .running ∨ p.status = .error) := by
  refine ⟨?_, ?_, ?_⟩
  · intro t p h
    unfold tickPod
    simp only [if_pos h]
  · intro t p h
    unfold tickPod
    simp only [if_neg h]
  · intro d s hs
    induction hs with
    | init =>
      intro p hp
      exact Or.inl (generateMockPods_status d p hp)
    | tick ds _ ih =>
      intro p hp
      obtain ⟨i, q, hq, rfl⟩ := mem_mapIdxFrom hp
      unfold tickPod
      dsimp only
      split
      · split
        · exact Or.inr rfl
        · exact Or.inl rfl
      · exact ih q hq
    | cmd nowIso command _ ih =>
      rw [executeCommand_fst]
      exact ih

/-! ## C7 — the `get pods` listing -/

/-- C7.  For every command reaching the `get pods` branch (it matches
`get pods` and not the earlier `exec -it` branch): the namespace comes from
the `-n <ns>` / `--namespace=<ns>` flag via `nsOf` (default `"default"`),
an all-namespaces flag (`allFlag`) suppresses the namespace filter
(see `filteredPods`); an empty filtered set yields the single
`No resources found in {ns} namespace.` line, and otherwise the output is
the header row followed by exactly one `podRow` per filtered pod — each row
carrying the pod's name, the constant `"1/1"`, the pod's live status, the
constant `"0"`, and the constant `"2d"` age placeholder. -/
theorem get_pods_listing :
    ∀ (nowIso : String) (s : ClusterState) (command : String),
      strIncludes (jsTrim command) "exec -it" = false →
      strIncludes (jsTrim command) "get pods" = true →
      ((filteredPods s (jsTrim command) = [] →
          (executeCommand nowIso s command).2 =
            "No resources found in " ++ nsOf (jsTrim command) ++
              " namespace.") ∧
        (filteredPods s (jsTrim command) ≠ [] →
          (executeCommand nowIso s command).2 =
            String.intercalate "\n"
              (getPodsHeader ::
                (filteredPods s (jsTrim command)).map podRow))) := by
  intro nowIso s command hex hget
  have hout : (executeCommand nowIso s command).2 =
      getPodsOutput s (jsTrim command) := by
    unfold executeCommand
    simp [hex, hget]
  constructor
  · intro hemp
    rw [hout]
    unfold getPodsOutput
    rw [hemp]
    simp
  · intro hne
    rw [hout]
    unfold getPodsOutput
    have hlen : ¬ (filteredPods s (jsTrim command)).length = 0 := by
      simpa [List.length_eq_zero] using hne
    rw [if_neg hlen]

/-- Witness for C7: against the freshly initialized store (5 pods in
`default`, 4 in `kube-system`), `kubectl get pods -n kube-system` extracts
namespace `kube-system`, sees no all-namespaces flag, and returns the
header plus exactly 4 data rows, all for `kube-system` pods. -/
theorem get_pods_listing_witness :
    strIncludes (jsTrim exampleCommand) "exec -it" = false ∧
    strIncludes (jsTrim exampleCommand) "get pods" = true ∧
    filteredPods (initState exampleDraws) (jsTrim exampleCommand) ≠ [] ∧
    (executeCommand "T" (initState exampleDraws) exampleCommand).2 =
      String.intercalate "\n"
        (getPodsHeader ::
          (filteredPods (initState exampleDraws)
            (jsTrim exampleCommand)).map podRow) ∧
    nsOf (jsTrim exampleCommand) = "kube-system" ∧
    allFlag (jsTrim exampleCommand) = false ∧
    (filteredPods (initState exampleDraws) (jsTrim exampleCommand)).length
      = 4 ∧
    (filteredPods (initState exampleDraws) (jsTrim exampleCommand)).map
        (fun p => p.namespace') =
      ["kube-system", "kube-system", "kube-system", "kube-system"] := by
  refine ⟨by decide, by decide, by decide,
    (get_pods_listing "T" (initState exampleDraws) exampleCommand
      (by decide) (by decide)).2 (by decide),
    by decide, by decide, by decide, by decide⟩

/-! ## The downstream consequence of the aliased snapshot (see C2)

`App.tsx` seeds `lastStateRef` with the very object `getState` returns, and
`getState` returns the internal store itself; after the next tick mutates
that store in place, `lastStateRef.current` and the new snapshot are the
same object, so the alert diff is handed one snapshot twice.  Diffing a
snapshot against itself emits nothing — every edge condition is
irreflexive — so the deployed alert loop can never fire. -/

/-- When pod ids are distinct, looking a pod of the list up by its own id
returns that pod. -/
theorem find?_self_of_nodup_ids {l : List Pod} {pod : Pod} (hmem : pod ∈ l)
    (hnd : (l.map (fun p => p.id)).Nodup) :
    l.find? (fun p => p.id == pod.id) = some pod := by
  induction l with
  | nil => cases hmem
  | cons a as ih =>
    rw [List.map_cons, List.nodup_cons] at hnd
    rcases List.mem_cons.mp hmem with rfl | hmem'
    · rw [List.find?_cons_of_pos _ (by simp)]
    · have hne : a.id ≠ pod.id := by
        intro he
        exact hnd.1 (he ▸ List.mem_map_of_mem (fun p => p.id) hmem')
      rw [List.find?_cons_of_neg _ (by simp [hne]), ih hmem' hnd.2]

/-- The alert diff of a snapshot against itself is empty. -/
theorem aliased_diff_emits_no_alerts (gen : ℕ → String) (now : String)
    (s : ClusterState) (hnd : (s.pods.map (fun p => p.id)).Nodup) :
    computeAlerts gen now s s = [] := by
  rw [computeAlerts]
  have hraw : rawAlerts now s s = [] := by
    rw [rawAlerts]
    rw [List.flatMap_eq_nil_iff]
    intro pod hpod
    unfold alertsForPod
    simp only [find?_self_of_nodup_ids hpod hnd]
    rw [if_neg (fun h : pod.status = .error ∧ pod.status ≠ .error =>
        h.2 h.1), List.nil_append,
      if_neg (fun h : utilEdge pod pod => h.elim
        (fun hc => absurd hc.1 (not_lt.mpr hc.2))
        (fun hm => absurd hm.1 (not_lt.mpr hm.2)))]
  rw [hraw]
  rfl

end KubeAgent
